import Mathlib

/-!
Verification of the decentralized API usage tracker against its design
specification.

The development shallowly embeds the three Vercel serverless handlers
(`api/register.ts`, `api/proxy.ts`, `api/usage.ts`) and the Solidity
contract `UsageLogger.sol`.

Modelling conventions:
* MongoDB collections become lists of documents held in a `Store` record;
  a `findOne` is `List.find?`, an `insertOne` appends, and the
  `updateOne {upsert:true}` on `usageCounters` is `upsertCounter`.
  The `session.withTransaction` block either commits both writes
  (environment flag `txOk = true`) or aborts leaving the store unchanged
  and raising, exactly as the driver does.
* Network effects (axios call, blockchain transaction) and clocks are
  passed in through a `ProxyEnv` record.  `axios(config)` resolves
  exactly when the upstream produced a response with a 2xx status
  (the axios default `validateStatus`); any other outcome rejects with
  an error carrying the response (if one exists), whose `message` for a
  status rejection is "Request failed with status code N".
* JavaScript `JSON.stringify` is embedded by `stringifyJson` over a
  `Json` value type; object keys are kept in insertion order, which is
  what `JSON.stringify` does for non numeric string keys.
* `crypto.createHash("sha256")` is embedded by a full executable SHA-256
  over the UTF-8 bytes of the input, checked below against the published
  test vectors.  `ethers.keccak256` is an external library call whose
  output no claim depends on; handlers take it as an explicit function
  argument `keccakBytes32`.
* JavaScript string operators: `a || b` picks `b` when `a` is absent or
  falsy (`jsStrOr`), `substring(0,8)` is `String.take 8` (keys are
  ASCII), `toUpperCase` is mapped `Char.toUpper` (methods are ASCII).
-/

/-! ## SHA-256, executable, over `Nat` with explicit reduction mod 2^32 -/

/-- Reduce a natural number to a 32-bit word. -/
def w32 (n : Nat) : Nat := n % 4294967296

/-- Rotate a 32-bit word right by `n` bits. -/
def rotr32 (x n : Nat) : Nat := w32 ((x >>> n) ||| (x <<< (32 - n)))

/-- The SHA-256 round constants. -/
def shaK : List Nat :=
  [1116352408, 1899447441, 3049323471, 3921009573, 961987163,
   1508970993, 2453635748, 2870763221, 3624381080, 310598401,
   607225278, 1426881987, 1925078388, 2162078206, 2614888103,
   3248222580, 3835390401, 4022224774, 264347078, 604807628,
   770255983, 1249150122, 1555081692, 1996064986, 2554220882,
   2821834349, 2952996808, 3210313671, 3336571891, 3584528711,
   113926993, 338241895, 666307205, 773529912, 1294757372,
   1396182291, 1695183700, 1986661051, 2177026350, 2456956037,
   2730485921, 2820302411, 3259730800, 3345764771, 3516065817,
   3600352804, 4094571909, 275423344, 430227734, 506948616,
   659060556, 883997877, 958139571, 1322822218, 1537002063,
   1747873779, 1955562222, 2024104815, 2227730452, 2361852424,
   2428436474, 2756734187, 3204031479, 3329325298]

/-- Working state of one SHA-256 compression: the eight 32-bit registers. -/
structure Sha8 where
  a : Nat
  b : Nat
  c : Nat
  d : Nat
  e : Nat
  f : Nat
  g : Nat
  h : Nat

/-- Read the `i`-th big-endian 32-bit word out of a byte list. -/
def beWord (bs : List Nat) (i : Nat) : Nat :=
  (bs.getD (4*i) 0) <<< 24 ||| (bs.getD (4*i+1) 0) <<< 16 |||
  (bs.getD (4*i+2) 0) <<< 8 ||| bs.getD (4*i+3) 0

/-- SHA-256 sigma-0 (message schedule). -/
def smallSigma0 (x : Nat) : Nat := rotr32 x 7 ^^^ rotr32 x 18 ^^^ (x >>> 3)

/-- SHA-256 sigma-1 (message schedule). -/
def smallSigma1 (x : Nat) : Nat := rotr32 x 17 ^^^ rotr32 x 19 ^^^ (x >>> 10)

/-- SHA-256 Sigma-0 (compression). -/
def bigSigma0 (x : Nat) : Nat := rotr32 x 2 ^^^ rotr32 x 13 ^^^ rotr32 x 22

/-- SHA-256 Sigma-1 (compression). -/
def bigSigma1 (x : Nat) : Nat := rotr32 x 6 ^^^ rotr32 x 11 ^^^ rotr32 x 25

/-- The 64-entry message schedule of one 64-byte block. -/
def msgSchedule (block : List Nat) : List Nat :=
  let w0 := (List.range 16).map (beWord block)
  (List.range 48).foldl
    (fun w t =>
      let x := w32 (w.getD t 0 + smallSigma0 (w.getD (t+1) 0) + w.getD (t+9) 0 +
        smallSigma1 (w.getD (t+14) 0))
      w ++ [x]) w0

/-- One SHA-256 round; `kw` is the round constant already added to the
schedule word.  Bitwise complement of `e` is `2^32 - 1 - e`. -/
def shaRound (st : Sha8) (kw : Nat) : Sha8 :=
  let t1 := w32 (st.h + bigSigma1 st.e +
    ((st.e &&& st.f) ^^^ ((4294967295 - st.e) &&& st.g)) + kw)
  let t2 := w32 (bigSigma0 st.a + ((st.a &&& st.b) ^^^ (st.a &&& st.c) ^^^ (st.b &&& st.c)))
  ⟨w32 (t1 + t2), st.a, st.b, st.c, w32 (st.d + t1), st.e, st.f, st.g⟩

/-- Compress one 64-byte block into the running hash (eight words). -/
def shaCompress (h : List Nat) (block : List Nat) : List Nat :=
  let w := msgSchedule block
  let kw := (List.range 64).map (fun t => w32 (shaK.getD t 0 + w.getD t 0))
  let st0 : Sha8 := ⟨h.getD 0 0, h.getD 1 0, h.getD 2 0, h.getD 3 0,
                     h.getD 4 0, h.getD 5 0, h.getD 6 0, h.getD 7 0⟩
  let st := kw.foldl shaRound st0
  [w32 (h.getD 0 0 + st.a), w32 (h.getD 1 0 + st.b), w32 (h.getD 2 0 + st.c),
   w32 (h.getD 3 0 + st.d), w32 (h.getD 4 0 + st.e), w32 (h.getD 5 0 + st.f),
   w32 (h.getD 6 0 + st.g), w32 (h.getD 7 0 + st.h)]

/-- A 64-bit big-endian byte encoding (for the length field of the padding). -/
def be64 (n : Nat) : List Nat :=
  [(n >>> 56) % 256, (n >>> 48) % 256, (n >>> 40) % 256, (n >>> 32) % 256,
   (n >>> 24) % 256, (n >>> 16) % 256, (n >>> 8) % 256, n % 256]

/-- SHA-256 padding: a 0x80 byte, zeros, then the bit length, reaching a
multiple of 64 bytes. -/
def padMsg (m : List Nat) : List Nat :=
  let L := m.length
  let k := (119 - L % 64) % 64
  m ++ [0x80] ++ List.replicate k 0 ++ be64 (8 * L)

/-- The SHA-256 initial hash value. -/
def shaH0 : List Nat :=
  [1779033703, 3144134277, 1013904242,
   2773480762, 1359893119, 2600822924,
   528734635, 1541459225]

/-- Fold the compression over `n` 64-byte blocks (structural in `n`, so the
kernel can evaluate it). -/
def sha256Loop : Nat → List Nat → List Nat → List Nat
  | 0, h, _ => h
  | n+1, h, m => sha256Loop n (shaCompress h (m.take 64)) (m.drop 64)

/-- SHA-256 of a byte list, as the eight 32-bit words of the digest. -/
def sha256Words (m : List Nat) : List Nat :=
  let p := padMsg m
  sha256Loop (p.length / 64) shaH0 p

/-- Lower case hexadecimal digit. -/
def hexDigit (n : Nat) : Char :=
  if n < 10 then Char.ofNat (48 + n) else Char.ofNat (87 + n)

/-- Eight hex digits of one 32-bit word, most significant first. -/
def hex8 (n : Nat) : List Char :=
  [hexDigit ((n >>> 28) % 16), hexDigit ((n >>> 24) % 16), hexDigit ((n >>> 20) % 16),
   hexDigit ((n >>> 16) % 16), hexDigit ((n >>> 12) % 16), hexDigit ((n >>> 8) % 16),
   hexDigit ((n >>> 4) % 16), hexDigit (n % 16)]

/-- UTF-8 encoding of one character (the Node hash update encodes strings as
UTF-8 by default). -/
def utf8Char (c : Char) : List Nat :=
  let n := c.toNat
  if n < 0x80 then [n]
  else if n < 0x800 then [0xC0 + n / 0x40, 0x80 + n % 0x40]
  else if n < 0x10000 then [0xE0 + n / 0x1000, 0x80 + (n / 0x40) % 0x40, 0x80 + n % 0x40]
  else [0xF0 + n / 0x40000, 0x80 + (n / 0x1000) % 0x40, 0x80 + (n / 0x40) % 0x40, 0x80 + n % 0x40]

/-- UTF-8 bytes of a string. -/
def utf8Bytes (s : String) : List Nat :=
  (s.data.map utf8Char).flatten

/-- Embedding of `sha256Hex` from `api/proxy.ts`:
`crypto.createHash("sha256").update(s).digest("hex")`. -/
def sha256Hex (s : String) : String :=
  ⟨((sha256Words (utf8Bytes s)).map hex8).flatten⟩

set_option maxRecDepth 400000

/-- Sanity check of the SHA-256 embedding against the first published NIST
test vector. -/
theorem sha256Hex_nist_abc :
    sha256Hex "abc" = "ba7816bf8f01cfea414140de5dae2223b00361a396177a9cb410ff61f20015ad" := by
  decide

/-- Sanity check of the SHA-256 embedding on the empty message. -/
theorem sha256Hex_nist_empty :
    sha256Hex "" = "e3b0c44298fc1c149afbf4c8996fb92427ae41e4649b934ca495991b7852b855" := by
  decide

/-! ## JSON values and `JSON.stringify` -/

mutual

/-- JSON values as JavaScript sees them.  Object fields keep insertion
order, because `JSON.stringify` serializes own enumerable string keys in
property order (insertion order for the non numeric keys used here). -/
inductive Json where
  | null
  | bool (b : Bool)
  | num (n : Int)
  | str (s : String)
  | arr (elems : JsonArr)
  | obj (fields : JsonObj)
deriving DecidableEq, Repr

/-- Spine of a JSON array. -/
inductive JsonArr where
  | nil
  | cons (hd : Json) (tl : JsonArr)
deriving DecidableEq, Repr

/-- Spine of a JSON object: ordered key/value fields. -/
inductive JsonObj where
  | nil
  | cons (key : String) (val : Json) (tl : JsonObj)
deriving DecidableEq, Repr

end

/-- JSON string escaping of one character, as `JSON.stringify` does it:
quote, backslash and the control characters are escaped, everything else
is emitted verbatim. -/
def escChar (c : Char) : String :=
  if c = '"' then "\\\""
  else if c = '\\' then "\\\\"
  else if c = '\n' then "\\n"
  else if c = '\r' then "\\r"
  else if c = '\t' then "\\t"
  else if c = Char.ofNat 8 then "\\b"
  else if c = Char.ofNat 12 then "\\f"
  else if c.toNat < 32 then "\\u00" ++ ⟨[hexDigit (c.toNat / 16), hexDigit (c.toNat % 16)]⟩
  else ⟨[c]⟩

/-- A JSON string literal: quotes around the escaped characters. -/
def jsonQuote (s : String) : String :=
  "\"" ++ String.join (s.data.map escChar) ++ "\""

mutual

/-- Embedding of `JSON.stringify` (no spacing argument): fields in stored
order, no added whitespace. -/
def stringifyJson : Json → String
  | .null => "null"
  | .bool true => "true"
  | .bool false => "false"
  | .num n => toString n
  | .str s => jsonQuote s
  | .arr xs => "[" ++ stringifyArr xs ++ "]"
  | .obj fs => "\x7b" ++ stringifyObj fs ++ "\x7d"

/-- Elements of an array, comma separated. -/
def stringifyArr : JsonArr → String
  | .nil => ""
  | .cons x .nil => stringifyJson x
  | .cons x (.cons y xs) => stringifyJson x ++ "," ++ stringifyArr (.cons y xs)

/-- Fields of an object, comma separated, each `"key":value`. -/
def stringifyObj : JsonObj → String
  | .nil => ""
  | .cons k v .nil => jsonQuote k ++ ":" ++ stringifyJson v
  | .cons k v (.cons k2 v2 fs) =>
    jsonQuote k ++ ":" ++ stringifyJson v ++ "," ++ stringifyObj (.cons k2 v2 fs)

end

/-! ## JavaScript value helpers -/

/-- JavaScript truthiness test on a JSON value (`NaN` is not representable
here; arrays and objects are always truthy). -/
def jsFalsy : Json → Bool
  | .null => true
  | .bool b => !b
  | .num n => n == 0
  | .str s => s == ""
  | .arr _ => false
  | .obj _ => false

/-- JavaScript `a || d` for an optional string `a`: the default wins when
`a` is absent or the empty string. -/
def jsStrOr : Option String → String → String
  | some s, d => if s = "" then d else s
  | none, d => d

/-- JavaScript `x || null` for an optional string: the empty string
collapses to null. -/
def jsStrOrNull : Option String → Option String
  | some s => if s = "" then none else some s
  | none => none

/-- JavaScript `v || {}` for an optional JSON value (`forwardConfig.data ||
{}` in the proxy): absent or falsy values become the empty object. -/
def jsOrEmptyObj : Option Json → Json
  | some j => if jsFalsy j then .obj .nil else j
  | none => .obj .nil

/-- ASCII upper casing, embedding `toUpperCase` on the (ASCII) HTTP method. -/
def jsUpper (s : String) : String := ⟨s.data.map Char.toUpper⟩

/-- Embedding of `(req.query.key || req.headers["x-api-key"])?.toString()`
followed by the `if (!apiKey)` guard: the resolved key, or `none` when both
sources are absent or the winner is the empty string. -/
def resolveKey (query : List (String × String)) (headerKey : Option String) : Option String :=
  let raw := match List.lookup "key" query with
    | some s => if s = "" then headerKey else some s
    | none => headerKey
  match raw with
  | some s => if s = "" then none else some s
  | none => none

/-! ## The MongoDB store -/

/-- One document of the `apiKeys` collection, as inserted by
`api/register.ts`. -/
structure ApiKeyDoc where
  apiKey : String
  userId : Option String
  createdAt : Nat
  active : Bool
  usageCount : Nat
deriving DecidableEq, Repr

/-- One document of the `usageLogs` collection, as inserted by
`api/proxy.ts`. -/
structure LogDoc where
  apiKey : String
  userId : Option String
  method : String
  endpoint : String
  params : List (String × String)
  status : Nat
  createdAt : Nat
  requestHash : String
  tag : String
deriving DecidableEq, Repr

/-- One document of the `usageCounters` collection. -/
structure CounterDoc where
  apiKey : String
  total : Nat
  updatedAt : Nat
deriving DecidableEq, Repr

/-- The three collections of the database. -/
structure Store where
  apiKeys : List ApiKeyDoc
  usageLogs : List LogDoc
  usageCounters : List CounterDoc
deriving DecidableEq, Repr

/-- Embedding of the `usageCounters.updateOne({apiKey}, {$inc:{total:1},
$set:{updatedAt:now}}, {upsert:true})` call: increment the first matching
document or create one with total 1. -/
def upsertCounter : List CounterDoc → String → Nat → List CounterDoc
  | [], key, now => [⟨key, 1, now⟩]
  | c :: cs, key, now =>
    if c.apiKey = key then ⟨key, c.total + 1, now⟩ :: cs
    else c :: upsertCounter cs key now

/-! ## The proxy handler (`api/proxy.ts`) -/

/-- The inbound request as the proxy reads it: method, query object entries
in property order (string values; the three reserved names and the
forwarded parameters all arrive here), the `x-api-key` header, and the
parsed body. -/
structure ProxyRequest where
  method : String
  query : List (String × String)
  headerKey : Option String
  body : Option Json
deriving DecidableEq, Repr

/-- Outcome of the upstream HTTP call: either no response was ever produced
(DNS/connection failure, timeout) or the upstream responded with a status
and a body. -/
inductive UpstreamOutcome where
  | noResponse
  | response (status : Nat) (data : Json)
deriving DecidableEq, Repr

/-- Outcome of `usageLogger.logUsage(...)` followed by `tx.wait()`: either
both awaited calls succeeded, yielding `receipt?.hash`, or something threw. -/
inductive LedgerOutcome where
  | ok (receiptHash : Option String)
  | failed
deriving DecidableEq, Repr

/-- The effectful environment of one proxy invocation: the upstream
outcome, the message of a response-less upstream error, whether the store
transaction commits, the message of a failing transaction, the blockchain
outcome, and the clock (`Math.floor(Date.now()/1000)`; the same instant
also stamps `createdAt`). -/
structure ProxyEnv where
  upstream : UpstreamOutcome
  netErrMsg : String
  txOk : Bool
  txErrMsg : String
  ledger : LedgerOutcome
  now : Nat
deriving DecidableEq, Repr

/-- The `audit` object attached to a successful proxy response: the success
shape carries `txHash` (absent when the receipt was null), the failure
shape carries `error` instead. -/
inductive Audit where
  | ok (txHash : Option String) (apiKeyHash requestHash : String) (timestamp : Nat) (tag : String)
  | failed (error : String) (apiKeyHash requestHash : String) (timestamp : Nat) (tag : String)
deriving DecidableEq, Repr

/-- What the proxy handler sends back: a 204 preflight, an error JSON
`{success:false, error, message}` with a status, or a success JSON
`{success:true, data, audit}` with the upstream status. -/
inductive ProxyResult where
  | preflight
  | err (status : Nat) (error message : String)
  | ok (status : Nat) (data : Json) (audit : Audit)
deriving DecidableEq, Repr

/-- One `logUsage` submission sent towards the blockchain. -/
structure LedgerCall where
  apiKeyHash : String
  timestamp : Nat
  requestHash : String
  tag : String
deriving DecidableEq, Repr

/-- The three reserved query parameter names stripped before forwarding:
`["key", "endpoint", "tag"]`. -/
def reservedNames : List String := ["key", "endpoint", "tag"]

/-- Embedding of `forwardConfig.params`:
`Object.fromEntries(Object.entries(req.query).filter(([k]) =>
!["key","endpoint","tag"].includes(k)))`. -/
def forwardedParams (query : List (String × String)) : List (String × String) :=
  query.filter (fun kv => !(reservedNames.contains kv.1))

/-- Embedding of `(req.method || "GET").toUpperCase()`. -/
def proxyMethod (req : ProxyRequest) : String :=
  jsUpper (if req.method = "" then "GET" else req.method)

/-- Embedding of `forwardConfig.data`: the body is forwarded only for the
methods that conventionally carry one. -/
def forwardedData (req : ProxyRequest) : Option Json :=
  if (["POST", "PUT", "PATCH"]).contains (proxyMethod req) then req.body else none

/-- Embedding of `req.query.tag?.toString() || "proxy:v1"`. -/
def proxyTag (req : ProxyRequest) : String :=
  jsStrOr (List.lookup "tag" req.query) "proxy:v1"

/-- Ordered object fields out of the forwarded parameter entries. -/
def paramsToJson : List (String × String) → JsonObj
  | [] => .nil
  | (k, v) :: rest => .cons k (.str v) (paramsToJson rest)

/-- Embedding of the `requestShape` string of `api/proxy.ts`:
`JSON.stringify({method, endpoint, params: forwardConfig.params || {},
body: forwardConfig.data || {}})`.  Keys appear in exactly this insertion
order; `JSON.stringify` does not sort them. -/
def requestShape (method endpoint : String) (params : List (String × String))
    (data : Option Json) : String :=
  stringifyJson (.obj (.cons "method" (.str method) (.cons "endpoint" (.str endpoint)
    (.cons "params" (.obj (paramsToJson params))
      (.cons "body" (jsOrEmptyObj data) .nil)))))

/-- The `requestHashHex` the proxy computes for a request once the endpoint
is known: SHA-256 of the canonical shape of the forwarded request. -/
def proxyRequestHashHex (req : ProxyRequest) (endpoint : String) : String :=
  sha256Hex (requestShape (proxyMethod req) endpoint (forwardedParams req.query)
    (forwardedData req))

/-- The axios default `validateStatus`: a response resolves the promise
exactly when its status is in [200, 300). -/
def axiosResolves (status : Nat) : Bool := 200 ≤ status && status < 300

/-- The `error.message` axios attaches when rejecting on a received
response status. -/
def axiosStatusMsg (status : Nat) : String :=
  "Request failed with status code " ++ toString status

/-- The committed effect of the `session.withTransaction` block: append the
`usageLogs` document and upsert-increment the `usageCounters` document,
together. -/
def recordUsage (store : Store) (apiKey : String) (keyDoc : ApiKeyDoc)
    (method endpoint : String) (params : List (String × String)) (status : Nat)
    (now : Nat) (requestHash tag : String) : Store :=
  { store with
    usageLogs := store.usageLogs ++
      [⟨apiKey, jsStrOrNull keyDoc.userId, method, endpoint, params, status, now,
        requestHash, tag⟩],
    usageCounters := upsertCounter store.usageCounters apiKey now }

/-- The proxy once key, key document and endpoint are validated: compute
the fingerprint, call upstream, persist, submit to the ledger, respond.
A rejected axios promise and a failing transaction both land in the
single outer catch of the handler, which answers
`error?.response?.status || 500` with `{success:false, error:"Proxy
failed", message: error?.message}`; only the blockchain step has its own
catch.  The third component lists the `logUsage` submissions attempted. -/
def proxyCore (keccakBytes32 : String → String) (req : ProxyRequest) (env : ProxyEnv)
    (store : Store) (apiKey : String) (keyDoc : ApiKeyDoc) (endpoint : String) :
    ProxyResult × Store × List LedgerCall :=
  let requestHashHex := proxyRequestHashHex req endpoint
  let apiKeyHashBytes32 := keccakBytes32 apiKey
  let tag := proxyTag req
  match env.upstream with
  | .noResponse => (.err 500 "Proxy failed" env.netErrMsg, store, [])
  | .response status data =>
    if axiosResolves status then
      if env.txOk then
        let store' := recordUsage store apiKey keyDoc (proxyMethod req) endpoint
          (forwardedParams req.query) status env.now requestHashHex tag
        let call : LedgerCall := ⟨apiKeyHashBytes32, env.now, "0x" ++ requestHashHex, tag⟩
        match env.ledger with
        | .ok receiptHash =>
          (.ok status data (.ok receiptHash apiKeyHashBytes32 requestHashHex env.now tag),
           store', [call])
        | .failed =>
          (.ok status data
            (.failed "Blockchain logging failed" apiKeyHashBytes32 requestHashHex env.now tag),
           store', [call])
      else (.err 500 "Proxy failed" env.txErrMsg, store, [])
    else
      (.err (if status == 0 then 500 else status) "Proxy failed" (axiosStatusMsg status),
       store, [])

/-- Embedding of the `api/proxy.ts` handler.  CORS preflight answers 204;
then the key is resolved from query or header (401 when absent), looked up
among the active `apiKeys` documents (403 when missing), the endpoint
parameter is required (400 when absent), and `proxyCore` runs the rest.
Message strings keep the source text with its quoted words elided. -/
def proxyHandler (keccakBytes32 : String → String) (req : ProxyRequest) (env : ProxyEnv)
    (store : Store) : ProxyResult × Store × List LedgerCall :=
  if req.method = "OPTIONS" then (.preflight, store, [])
  else
    match resolveKey req.query req.headerKey with
    | none => (.err 401 "Missing API key"
        "Please provide an API key via the key query parameter or the x-api-key header",
        store, [])
    | some apiKey =>
      match store.apiKeys.find? (fun d => d.apiKey == apiKey && d.active) with
      | none => (.err 403 "Invalid API key" "API key not found or inactive", store, [])
      | some keyDoc =>
        let endpoint := (List.lookup "endpoint" req.query).getD ""
        if endpoint = "" then
          (.err 400 "Missing endpoint" "Please specify an endpoint parameter", store, [])
        else proxyCore keccakBytes32 req env store apiKey keyDoc endpoint

/-- JSON rendering of the `audit` field; an absent `txHash`
(`receipt?.hash` on a null receipt) is dropped, as `res.json` drops
undefined properties. -/
def auditJson : Audit → Json
  | .ok (some h) kh rh ts tg =>
    .obj (.cons "txHash" (.str h) (.cons "apiKeyHash" (.str kh) (.cons "requestHash" (.str rh)
      (.cons "timestamp" (.num ts) (.cons "tag" (.str tg) .nil)))))
  | .ok none kh rh ts tg =>
    .obj (.cons "apiKeyHash" (.str kh) (.cons "requestHash" (.str rh)
      (.cons "timestamp" (.num ts) (.cons "tag" (.str tg) .nil))))
  | .failed e kh rh ts tg =>
    .obj (.cons "error" (.str e) (.cons "apiKeyHash" (.str kh) (.cons "requestHash" (.str rh)
      (.cons "timestamp" (.num ts) (.cons "tag" (.str tg) .nil)))))

/-- The JSON body `res.json` sends for each proxy outcome (a 204 preflight
has no body). -/
def proxyResponseJson : ProxyResult → Json
  | .preflight => .null
  | .err _ e m =>
    .obj (.cons "success" (.bool false) (.cons "error" (.str e) (.cons "message" (.str m) .nil)))
  | .ok _ d a =>
    .obj (.cons "success" (.bool true) (.cons "data" d (.cons "audit" (auditJson a) .nil)))

/-- The HTTP status of each proxy outcome. -/
def proxyStatus : ProxyResult → Nat
  | .preflight => 204
  | .err s _ _ => s
  | .ok s _ _ => s

/-! ## The usage statistics handler (`api/usage.ts`) -/

/-- The inbound request as the usage handler reads it. -/
structure UsageRequest where
  method : String
  query : List (String × String)
  headerKey : Option String
deriving DecidableEq, Repr

/-- What the usage handler sends back: 204 preflight, an error JSON with a
status, or the 200 data object `{totalUsage, recentLogs, apiKey}` whose
`recentLogs` are `usageLogs` documents returned verbatim and whose
`apiKey` field is the partial key for display. -/
inductive UsageResult where
  | preflight
  | err (status : Nat) (error : String)
  | ok (totalUsage : Nat) (recentLogs : List LogDoc) (maskedKey : String)
deriving DecidableEq, Repr

/-- Mongo sort order `{createdAt: -1}` between usage log documents. -/
def createdAtDesc (a b : LogDoc) : Prop := b.createdAt ≤ a.createdAt

instance : DecidableRel createdAtDesc := fun a b => Nat.decLe b.createdAt a.createdAt

instance : IsTotal LogDoc createdAtDesc :=
  ⟨fun a b => Nat.le_total b.createdAt a.createdAt⟩

instance : IsTrans LogDoc createdAtDesc :=
  ⟨fun _ _ _ h1 h2 => Nat.le_trans h2 h1⟩

/-- Embedding of `usageLogsCollection.find({apiKey})`. -/
def logsForKey (store : Store) (apiKey : String) : List LogDoc :=
  store.usageLogs.filter (fun l => l.apiKey == apiKey)

/-- Embedding of `.find({apiKey}).sort({createdAt:-1}).limit(10).toArray()`. -/
def recentLogsFor (store : Store) (apiKey : String) : List LogDoc :=
  (List.insertionSort createdAtDesc (logsForKey store apiKey)).take 10

/-- Embedding of `counterDoc ? counterDoc.total || 0 : 0` over
`usageCountersCollection.findOne({apiKey})`. -/
def totalUsageFor (store : Store) (apiKey : String) : Nat :=
  match store.usageCounters.find? (fun c => c.apiKey == apiKey) with
  | some c => c.total
  | none => 0

/-- Embedding of the `api/usage.ts` handler: 204 for OPTIONS, 405 for any
other non-GET method, 401 without a key, otherwise the counter total, the
ten most recent log documents and the masked key
`apiKey.substring(0, 8) + "..."`.  The handler never consults the
`apiKeys` collection. -/
def usageHandler (req : UsageRequest) (store : Store) : UsageResult :=
  if req.method = "OPTIONS" then .preflight
  else if req.method ≠ "GET" then .err 405 "Method not allowed"
  else
    match resolveKey req.query req.headerKey with
    | none => .err 401 "Missing API key"
    | some apiKey =>
      .ok (totalUsageFor store apiKey) (recentLogsFor store apiKey) (apiKey.take 8 ++ "...")

/-! ## The registration handler (`api/register.ts`) -/

/-- The inbound request as the register handler reads it (`bodyUserId` is
`req.body?.userId`). -/
structure RegisterRequest where
  method : String
  query : List (String × String)
  bodyUserId : Option String
deriving DecidableEq, Repr

/-- What the register handler sends back. -/
inductive RegisterResult where
  | preflight
  | err (status : Nat) (error : String)
  | ok (apiKey userId : String)
deriving DecidableEq, Repr

/-- Embedding of the `api/register.ts` handler.  `newKey` stands for the
fresh uuidv4-without-dashes token and `storeOk` for whether the
`insertOne` into `apiKeys` succeeds (a failure answers 500 with nothing
persisted).  The method guard runs before any store access: 204 for
OPTIONS, 405 for everything that is neither POST nor GET. -/
def registerHandler (req : RegisterRequest) (newKey : String) (now : Nat) (storeOk : Bool)
    (store : Store) : RegisterResult × Store :=
  if req.method = "OPTIONS" then (.preflight, store)
  else if req.method ≠ "POST" ∧ req.method ≠ "GET" then (.err 405 "Method not allowed", store)
  else if storeOk then
    let userId := jsStrOr (List.lookup "userId" req.query) (jsStrOr req.bodyUserId "anonymous")
    (.ok newKey userId,
     { store with apiKeys := store.apiKeys ++ [⟨newKey, some userId, now, true, 0⟩] })
  else (.err 500 "Registration failed", store)

/-! ## The `UsageLogger` contract (`src/blockchain/contracts/UsageLogger.sol`) -/

/-- One `ApiUsageLogged` event. -/
structure UsageEvent where
  submitter : String
  apiKeyHash : String
  timestamp : Nat
  requestHash : String
  tag : String
deriving DecidableEq, Repr

/-- Contract storage plus its emitted event log: the public
`mapping(bytes32 => uint256) lastSeenAt` (zero-initialised, as Solidity
mappings are) and the append-only event stream. -/
structure LedgerState where
  lastSeenAt : String → Nat
  events : List UsageEvent

/-- Embedding of `logUsage(apiKeyHash, timestamp, requestHash, tag)`:
advance `lastSeenAt[apiKeyHash]` only when `timestamp > prev`, and always
emit `ApiUsageLogged(msg.sender, apiKeyHash, timestamp, requestHash, tag)`. -/
def logUsage (st : LedgerState) (sender apiKeyHash : String) (timestamp : Nat)
    (requestHash tag : String) : LedgerState :=
  let prev := st.lastSeenAt apiKeyHash
  { lastSeenAt := fun k =>
      if k = apiKeyHash then (if timestamp > prev then timestamp else prev)
      else st.lastSeenAt k,
    events := st.events ++ [⟨sender, apiKeyHash, timestamp, requestHash, tag⟩] }

/-- Embedding of the read-only `getLastSeenAt`. -/
def getLastSeenAt (st : LedgerState) (apiKeyHash : String) : Nat :=
  st.lastSeenAt apiKeyHash

/-- Arguments of one `logUsage` invocation, for reasoning about call
sequences. -/
structure LogCall where
  sender : String
  apiKeyHash : String
  timestamp : Nat
  requestHash : String
  tag : String
deriving DecidableEq, Repr

/-- Run a sequence of `logUsage` calls left to right. -/
def applyLogCalls (st : LedgerState) (calls : List LogCall) : LedgerState :=
  calls.foldl (fun s c => logUsage s c.sender c.apiKeyHash c.timestamp c.requestHash c.tag) st

/-! ## Helper lemmas -/

/-- One `logUsage` call never lowers any watermark entry. -/
theorem logUsage_lastSeenAt_le (st : LedgerState) (sender apiKeyHash : String)
    (timestamp : Nat) (requestHash tag : String) (k : String) :
    st.lastSeenAt k ≤ (logUsage st sender apiKeyHash timestamp requestHash tag).lastSeenAt k := by
  simp only [logUsage]
  by_cases hk : k = apiKeyHash
  · subst hk
    by_cases hts : timestamp > st.lastSeenAt k
    · simp only [if_pos rfl, if_pos hts]
      exact Nat.le_of_lt hts
    · simp only [if_pos rfl, if_neg hts]
      exact Nat.le_refl _
  · simp only [if_neg hk]
    exact Nat.le_refl _

/-- A whole sequence of `logUsage` calls never lowers any watermark entry. -/
theorem applyLogCalls_lastSeenAt_le (calls : List LogCall) (st : LedgerState) (k : String) :
    st.lastSeenAt k ≤ (applyLogCalls st calls).lastSeenAt k := by
  induction calls generalizing st with
  | nil => exact Nat.le_refl _
  | cons c cs ih =>
    simp only [applyLogCalls, List.foldl_cons]
    exact Nat.le_trans
      (logUsage_lastSeenAt_le st c.sender c.apiKeyHash c.timestamp c.requestHash c.tag k)
      (ih (logUsage st c.sender c.apiKeyHash c.timestamp c.requestHash c.tag))

/-- An initial contract state, for concrete instantiations. -/
def initialLedger : LedgerState := ⟨fun _ => 0, []⟩

/-! ## Claims -/

/-- Claim C7 (confirmed): every `logUsage(apiKeyHash, timestamp, requestHash,
tag)` call always emits an `ApiUsageLogged` event; `lastSeenAt[apiKeyHash]`
becomes `timestamp` exactly when `timestamp` strictly exceeds the stored
value and is left untouched otherwise (and all other keys are untouched);
consequently `lastSeenAt` never decreases across any sequence of calls. -/
theorem usageLogger_logUsage_spec (st : LedgerState) (sender apiKeyHash : String)
    (timestamp : Nat) (requestHash tag : String) :
    ((logUsage st sender apiKeyHash timestamp requestHash tag).events
        = st.events ++ [⟨sender, apiKeyHash, timestamp, requestHash, tag⟩])
    ∧ ((logUsage st sender apiKeyHash timestamp requestHash tag).lastSeenAt apiKeyHash
        = if timestamp > st.lastSeenAt apiKeyHash then timestamp
          else st.lastSeenAt apiKeyHash)
    ∧ (∀ k, k ≠ apiKeyHash →
        (logUsage st sender apiKeyHash timestamp requestHash tag).lastSeenAt k
          = st.lastSeenAt k)
    ∧ (∀ calls k, st.lastSeenAt k ≤ (applyLogCalls st calls).lastSeenAt k) := by
  refine ⟨rfl, ?_, ?_, ?_⟩
  · simp [logUsage]
  · intro k hk
    simp [logUsage, if_neg hk]
  · intro calls k
    exact applyLogCalls_lastSeenAt_le calls st k

/-- Claim C7 witness: instantiation at a concrete state and call. -/
theorem usageLogger_logUsage_spec_witness :
    (logUsage initialLedger "0xsub" "0xkey" 5 "0xreq" "tagA").lastSeenAt "0xother"
      = initialLedger.lastSeenAt "0xother" :=
  (usageLogger_logUsage_spec initialLedger "0xsub" "0xkey" 5 "0xreq" "tagA").2.2.1
    "0xother" (by decide)

/-- Claim C10 (confirmed): any register request whose method is neither GET
nor POST gets 405 `{success:false, error:"Method not allowed"}` and no
`apiKeys` document is inserted, except OPTIONS, which gets a 204 preflight
(also without touching the store). -/
theorem register_method_guard (req : RegisterRequest) (newKey : String) (now : Nat)
    (storeOk : Bool) (store : Store) :
    (req.method ≠ "OPTIONS" → req.method ≠ "GET" → req.method ≠ "POST" →
      registerHandler req newKey now storeOk store = (.err 405 "Method not allowed", store))
    ∧ registerHandler ⟨"OPTIONS", req.query, req.bodyUserId⟩ newKey now storeOk store
        = (.preflight, store) := by
  constructor
  · intro h1 h2 h3
    unfold registerHandler
    rw [if_neg h1, if_pos ⟨h3, h2⟩]
  · unfold registerHandler
    rw [if_pos rfl]

/-- Claim C10 witness: a DELETE register request on an empty store. -/
theorem register_method_guard_witness :
    registerHandler ⟨"DELETE", [("userId", "alice")], none⟩ "deadbeef" 7 true ⟨[], [], []⟩
      = (.err 405 "Method not allowed", ⟨[], [], []⟩) :=
  (register_method_guard ⟨"DELETE", [("userId", "alice")], none⟩ "deadbeef" 7 true
    ⟨[], [], []⟩).1 (by decide) (by decide) (by decide)

/-- The reported recent logs are at most ten. -/
theorem recentLogsFor_length_le (store : Store) (apiKey : String) :
    (recentLogsFor store apiKey).length ≤ 10 := by
  unfold recentLogsFor
  rw [List.length_take]
  exact min_le_left _ _

/-- The reported recent logs are sorted by `createdAt` descending. -/
theorem recentLogsFor_sorted (store : Store) (apiKey : String) :
    List.Sorted createdAtDesc (recentLogsFor store apiKey) :=
  List.Pairwise.sublist (List.take_sublist 10 _)
    (List.sorted_insertionSort createdAtDesc (logsForKey store apiKey))

/-- Every log of the key left out of the report is at most as recent as
every reported one. -/
theorem recentLogsFor_most_recent (store : Store) (apiKey : String) :
    ∀ l ∈ logsForKey store apiKey, l ∉ recentLogsFor store apiKey →
      ∀ m ∈ recentLogsFor store apiKey, l.createdAt ≤ m.createdAt := by
  intro l hl hnot m hm
  set s := List.insertionSort createdAtDesc (logsForKey store apiKey) with hs
  have hmem : l ∈ s := (List.mem_insertionSort createdAtDesc).mpr hl
  have hsorted : List.Pairwise createdAtDesc s :=
    List.sorted_insertionSort createdAtDesc (logsForKey store apiKey)
  have hsplit : List.take 10 s ++ List.drop 10 s = s := List.take_append_drop 10 s
  have hpair := (@List.pairwise_append LogDoc createdAtDesc (List.take 10 s) (List.drop 10 s)).mp
    (by rw [hsplit]; exact hsorted)
  have hldrop : l ∈ List.drop 10 s := by
    rcases (List.mem_append.mp (by rw [hsplit]; exact hmem)) with h | h
    · exact absurd h hnot
    · exact h
  exact hpair.2.2 m hm l hldrop

/-- Every reported recent log belongs to the stored logs of the queried key. -/
theorem recentLogsFor_mem (store : Store) (apiKey : String) :
    ∀ d ∈ recentLogsFor store apiKey, d ∈ store.usageLogs ∧ d.apiKey = apiKey := by
  intro d hd
  have hfil : d ∈ logsForKey store apiKey :=
    (List.mem_insertionSort createdAtDesc).mp (List.mem_of_mem_take hd)
  have := List.mem_filter.mp hfil
  exact ⟨this.1, eq_of_beq this.2⟩

/-- Claim C8 (confirmed): a GET usage report with a key present answers the
counter total (`0` when no counter document exists) together with at most
the ten most recent `usageLogs` documents of that key in `createdAt`
descending order and the masked key; a key with no logs and no counter
yields total `0` and an empty list, and the `apiKeys` collection is never
consulted. -/
theorem usage_report_spec (store : Store) (q : List (String × String))
    (hdr : Option String) (apiKey : String)
    (hk : resolveKey q hdr = some apiKey) :
    usageHandler ⟨"GET", q, hdr⟩ store
      = .ok (totalUsageFor store apiKey) (recentLogsFor store apiKey) (apiKey.take 8 ++ "...")
    ∧ (recentLogsFor store apiKey).length ≤ 10
    ∧ List.Sorted createdAtDesc (recentLogsFor store apiKey)
    ∧ (∀ l ∈ logsForKey store apiKey, l ∉ recentLogsFor store apiKey →
        ∀ m ∈ recentLogsFor store apiKey, l.createdAt ≤ m.createdAt)
    ∧ (store.usageCounters.find? (fun c => c.apiKey == apiKey) = none →
        totalUsageFor store apiKey = 0)
    ∧ (logsForKey store apiKey = [] → recentLogsFor store apiKey = [])
    ∧ (∀ aks, usageHandler ⟨"GET", q, hdr⟩ { store with apiKeys := aks }
        = usageHandler ⟨"GET", q, hdr⟩ store) := by
  refine ⟨?_, recentLogsFor_length_le store apiKey, recentLogsFor_sorted store apiKey,
    recentLogsFor_most_recent store apiKey, ?_, ?_, ?_⟩
  · simp [usageHandler, hk]
  · intro hnone
    unfold totalUsageFor
    rw [hnone]
  · intro hempty
    unfold recentLogsFor
    rw [hempty]
    rfl
  · intro aks
    rfl

/-- Claim C8 witness: a key with zero prior calls on a store whose
`apiKeys` collection does not even contain it. -/
theorem usage_report_spec_witness :
    usageHandler ⟨"GET", [("key", "deadbeef")], none⟩ ⟨[], [], []⟩ = .ok 0 [] "deadbeef..." :=
  ((usage_report_spec ⟨[], [], []⟩ [("key", "deadbeef")] none "deadbeef" (by decide)).1).trans
    (by decide)

/-- Claim C9 (corrected): the `apiKey` field of a usage report is always
the first eight characters of the supplied key followed by "...", but the
full key is nonetheless echoed: every returned `recentLogs` document
carries the raw `apiKey` the proxy stored in it. -/
theorem usage_masked_key_and_raw_logs (store : Store) (q : List (String × String))
    (hdr : Option String) (apiKey : String)
    (hk : resolveKey q hdr = some apiKey) :
    usageHandler ⟨"GET", q, hdr⟩ store
      = .ok (totalUsageFor store apiKey) (recentLogsFor store apiKey) (apiKey.take 8 ++ "...")
    ∧ (∀ d ∈ recentLogsFor store apiKey, d.apiKey = apiKey) := by
  constructor
  · simp [usageHandler, hk]
  · intro d hd
    exact (recentLogsFor_mem store apiKey d hd).2

/-- A 32-character key, shaped like the uuid-derived keys register mints. -/
def cexKey : String := "0123456789abcdef0123456789abcdef"

/-- A stored usage log document of that key. -/
def cexLog : LogDoc :=
  ⟨cexKey, some "alice", "GET", "/forecast", [("latitude", "52.52"), ("longitude", "13.41")],
   200, 1700000100, "a1a281fe0d01ff7c4aac8268b7ae76a7874074fff9fe1f1d15a40e10cd1ff601",
   "proxy:v1"⟩

/-- A store in which `cexKey` is registered and has one logged call. -/
def cexUsageStore : Store :=
  ⟨[⟨cexKey, some "alice", 1000, true, 0⟩], [cexLog], [⟨cexKey, 1, 1700000100⟩]⟩

/-- Claim C9 counterexample: on a key with one prior call, the usage report
masks the `apiKey` field, yet the returned `recentLogs` entry contains the
full 32-character key verbatim — the endpoint does echo the full key. -/
theorem usage_full_key_in_recentLogs_cex :
    usageHandler ⟨"GET", [("key", cexKey)], none⟩ cexUsageStore
      = .ok 1 [cexLog] "01234567..."
    ∧ cexLog.apiKey = cexKey
    ∧ cexKey.length = 32
    ∧ "01234567..." ≠ cexKey := by
  exact ⟨by decide, by decide, by decide, by decide⟩

/-- Claim C9 witness: the masked-field half of the corrected claim at a
concrete store and key. -/
theorem usage_masked_key_and_raw_logs_witness :
    usageHandler ⟨"GET", [("key", cexKey)], none⟩ cexUsageStore
      = .ok (totalUsageFor cexUsageStore cexKey) (recentLogsFor cexUsageStore cexKey)
          (cexKey.take 8 ++ "...") :=
  (usage_masked_key_and_raw_logs cexUsageStore [("key", cexKey)] none cexKey (by decide)).1

/-- Once the guards pass (not a preflight, key resolved, active key
document found, endpoint present), the proxy handler is `proxyCore`. -/
theorem proxyHandler_valid (keccakBytes32 : String → String) (req : ProxyRequest)
    (env : ProxyEnv) (store : Store) (apiKey : String) (keyDoc : ApiKeyDoc) (endpoint : String)
    (h1 : req.method ≠ "OPTIONS")
    (h2 : resolveKey req.query req.headerKey = some apiKey)
    (h3 : store.apiKeys.find? (fun d => d.apiKey == apiKey && d.active) = some keyDoc)
    (h4 : (List.lookup "endpoint" req.query).getD "" = endpoint)
    (h5 : endpoint ≠ "") :
    proxyHandler keccakBytes32 req env store
      = proxyCore keccakBytes32 req env store apiKey keyDoc endpoint := by
  unfold proxyHandler
  rw [if_neg h1, h2]
  dsimp only
  rw [h3]
  dsimp only
  simp only [h4, if_neg h5]

/-- Upserting the counter of `k` leaves exactly one more call on the total
the usage reporter reads for `k`. -/
theorem find?_upsertCounter (cs : List CounterDoc) (k : String) (now : Nat) :
    (upsertCounter cs k now).find? (fun c => c.apiKey == k)
      = some ⟨k, (match cs.find? (fun c => c.apiKey == k) with
                  | some c => c.total
                  | none => 0) + 1, now⟩ := by
  induction cs with
  | nil => simp [upsertCounter, List.find?]
  | cons c cs ih =>
    by_cases hc : c.apiKey = k
    · simp [upsertCounter, hc, List.find?]
    · have hbeq : (c.apiKey == k) = false := beq_false_of_ne hc
      simp [upsertCounter, hc, List.find?, hbeq, ih]

/-- A store in which `cexKey` is registered, active and unused. -/
def cexStore : Store := ⟨[⟨cexKey, some "alice", 1000, true, 0⟩], [], []⟩

/-- The query of the spec example request
`/proxy?key=...&endpoint=/forecast&latitude=52.52&longitude=13.41`. -/
def cexQuery : List (String × String) :=
  [("key", cexKey), ("endpoint", "/forecast"), ("latitude", "52.52"), ("longitude", "13.41")]

/-- A concrete GET proxy request with that query. -/
def cexReq : ProxyRequest := ⟨"GET", cexQuery, none, none⟩

/-- A concrete stand-in for the external `ethers.keccak256` call. -/
def cexKeccak : String → String := fun s => "0xkh-" ++ s

/-- An environment in which the upstream answers 200 but the store
transaction fails. -/
def cexEnvTxFail : ProxyEnv :=
  ⟨.response 200 (.str "upstream payload"), "socket hang up", false,
   "MongoNetworkError: connection refused", .ok (some "0xabc"), 1700000000⟩

/-- Claim C1 counterexample: with a valid key, a received 200 upstream
response and a failing store transaction, the handler does not return the
upstream status and body; the transaction error escapes to the outer catch
and the client gets 500 `{success:false, error:"Proxy failed"}`. -/
theorem proxy_storeTxFailure_drops_upstream_cex :
    proxyHandler cexKeccak cexReq cexEnvTxFail cexStore
      = (.err 500 "Proxy failed" "MongoNetworkError: connection refused", cexStore, [])
    ∧ cexEnvTxFail.upstream = .response 200 (.str "upstream payload")
    ∧ proxyStatus (.err 500 "Proxy failed" "MongoNetworkError: connection refused") ≠ 200
    ∧ proxyResponseJson (.err 500 "Proxy failed" "MongoNetworkError: connection refused")
        ≠ .str "upstream payload" := by
  exact ⟨by decide, by decide, by decide, by decide⟩

/-- Claim C1 (corrected): when the upstream call resolved but the store
transaction fails, the persistence failure is not swallowed: the handler
has no catch around `session.withTransaction`, so the error reaches the
outer catch and the client receives 500 `{success:false, error:"Proxy
failed", message}` instead of the upstream response; the store is left
unchanged and no ledger submission is attempted.  Only ledger failures are
swallowed. -/
theorem proxy_storeTxFailure_responds_500 (keccakBytes32 : String → String)
    (req : ProxyRequest) (env : ProxyEnv) (store : Store) (apiKey : String)
    (keyDoc : ApiKeyDoc) (endpoint : String) (status : Nat) (data : Json)
    (h1 : req.method ≠ "OPTIONS")
    (h2 : resolveKey req.query req.headerKey = some apiKey)
    (h3 : store.apiKeys.find? (fun d => d.apiKey == apiKey && d.active) = some keyDoc)
    (h4 : (List.lookup "endpoint" req.query).getD "" = endpoint)
    (h5 : endpoint ≠ "")
    (h6 : env.upstream = .response status data)
    (h7 : axiosResolves status = true)
    (h8 : env.txOk = false) :
    proxyHandler keccakBytes32 req env store
      = (.err 500 "Proxy failed" env.txErrMsg, store, []) := by
  rw [proxyHandler_valid keccakBytes32 req env store apiKey keyDoc endpoint h1 h2 h3 h4 h5]
  unfold proxyCore
  rw [h6]
  simp only [h7, h8, if_true, if_false, Bool.false_eq_true]

/-- Claim C1 witness: the corrected claim instantiated at the concrete
request, store and failing-transaction environment. -/
theorem proxy_storeTxFailure_responds_500_witness :
    proxyHandler cexKeccak cexReq cexEnvTxFail cexStore
      = (.err 500 "Proxy failed" cexEnvTxFail.txErrMsg, cexStore, []) :=
  proxy_storeTxFailure_responds_500 cexKeccak cexReq cexEnvTxFail cexStore cexKey
    ⟨cexKey, some "alice", 1000, true, 0⟩ "/forecast" 200 (.str "upstream payload")
    (by decide) (by decide) (by decide) (by decide) (by decide) (by decide) (by decide)
    (by decide)

/-- An environment in which the upstream responds with a 404 error status. -/
def cexEnv404 : ProxyEnv :=
  ⟨.response 404 (.str "upstream error body"), "socket hang up", true, "tx",
   .ok (some "0xabc"), 1700000000⟩

/-- Claim C2 counterexample: the upstream produced a (404) response, yet no
`usageLogs` document is inserted and no counter is incremented — the store
comes back unchanged — because axios rejects non-2xx statuses and the
rejection skips the transaction; persistence is not independent of the
status code. -/
theorem proxy_no_persistence_on_error_status_cex :
    proxyHandler cexKeccak cexReq cexEnv404 cexStore
      = (.err 404 "Proxy failed" "Request failed with status code 404", cexStore, [])
    ∧ cexEnv404.upstream = .response 404 (.str "upstream error body")
    ∧ (proxyHandler cexKeccak cexReq cexEnv404 cexStore).2.1.usageLogs = []
    ∧ (proxyHandler cexKeccak cexReq cexEnv404 cexStore).2.1.usageCounters = [] := by
  exact ⟨by decide, by decide, by decide, by decide⟩

/-- Claim C2 (corrected): the `usageLogs` insert and the counter
upsert-increment happen together, in one transaction, exactly when the
upstream call resolved — that is, when the upstream returned a 2xx status
(the axios default `validateStatus`) and the transaction commits.  When the
upstream never produced a response, returned a non-2xx status, or the
transaction fails, the store is unchanged. -/
theorem proxy_persistence_exactly_on_2xx (keccakBytes32 : String → String)
    (req : ProxyRequest) (env : ProxyEnv) (store : Store) (apiKey : String)
    (keyDoc : ApiKeyDoc) (endpoint : String)
    (h1 : req.method ≠ "OPTIONS")
    (h2 : resolveKey req.query req.headerKey = some apiKey)
    (h3 : store.apiKeys.find? (fun d => d.apiKey == apiKey && d.active) = some keyDoc)
    (h4 : (List.lookup "endpoint" req.query).getD "" = endpoint)
    (h5 : endpoint ≠ "") :
    (∀ status data, env.upstream = .response status data → axiosResolves status = true →
      env.txOk = true →
      (proxyHandler keccakBytes32 req env store).2.1
        = recordUsage store apiKey keyDoc (proxyMethod req) endpoint
            (forwardedParams req.query) status env.now (proxyRequestHashHex req endpoint)
            (proxyTag req)
      ∧ totalUsageFor (proxyHandler keccakBytes32 req env store).2.1 apiKey
          = totalUsageFor store apiKey + 1
      ∧ (proxyHandler keccakBytes32 req env store).2.1.usageLogs
          = store.usageLogs ++
            [⟨apiKey, jsStrOrNull keyDoc.userId, proxyMethod req, endpoint,
              forwardedParams req.query, status, env.now, proxyRequestHashHex req endpoint,
              proxyTag req⟩])
    ∧ (env.upstream = .noResponse → (proxyHandler keccakBytes32 req env store).2.1 = store)
    ∧ (∀ status data, env.upstream = .response status data → axiosResolves status = false →
        (proxyHandler keccakBytes32 req env store).2.1 = store)
    ∧ (env.txOk = false → (proxyHandler keccakBytes32 req env store).2.1 = store) := by
  rw [proxyHandler_valid keccakBytes32 req env store apiKey keyDoc endpoint h1 h2 h3 h4 h5]
  refine ⟨?_, ?_, ?_, ?_⟩
  · intro status data h6 h7 h8
    unfold proxyCore
    rw [h6]
    simp only [h7, h8, if_true]
    refine ⟨?_, ?_, ?_⟩
    · cases env.ledger <;> rfl
    · have hstore : (match env.ledger with
        | LedgerOutcome.ok receiptHash =>
          ((ProxyResult.ok status data
              (.ok receiptHash (keccakBytes32 apiKey) (proxyRequestHashHex req endpoint)
                env.now (proxyTag req))),
            recordUsage store apiKey keyDoc (proxyMethod req) endpoint
              (forwardedParams req.query) status env.now (proxyRequestHashHex req endpoint)
              (proxyTag req),
            [(⟨keccakBytes32 apiKey, env.now, "0x" ++ proxyRequestHashHex req endpoint,
              proxyTag req⟩ : LedgerCall)])
        | LedgerOutcome.failed =>
          ((ProxyResult.ok status data
              (.failed "Blockchain logging failed" (keccakBytes32 apiKey)
                (proxyRequestHashHex req endpoint) env.now (proxyTag req))),
            recordUsage store apiKey keyDoc (proxyMethod req) endpoint
              (forwardedParams req.query) status env.now (proxyRequestHashHex req endpoint)
              (proxyTag req),
            [(⟨keccakBytes32 apiKey, env.now, "0x" ++ proxyRequestHashHex req endpoint,
              proxyTag req⟩ : LedgerCall)])).2.1
          = recordUsage store apiKey keyDoc (proxyMethod req) endpoint
              (forwardedParams req.query) status env.now (proxyRequestHashHex req endpoint)
              (proxyTag req) := by
        cases env.ledger <;> rfl
      rw [hstore]
      unfold recordUsage totalUsageFor
      simp only [find?_upsertCounter]
    · cases env.ledger <;> rfl
  · intro h6
    unfold proxyCore
    rw [h6]
  · intro status data h6 h7
    unfold proxyCore
    rw [h6]
    simp only [h7, Bool.false_eq_true, if_false]
  · intro h8
    unfold proxyCore
    cases henv : env.upstream with
    | noResponse => rfl
    | response status data =>
      by_cases h7 : axiosResolves status = true
      · simp only [h7, h8, if_true, Bool.false_eq_true, if_false]
      · simp only [Bool.not_eq_true] at h7
        simp only [h7, Bool.false_eq_true, if_false]

/-- An environment in which everything succeeds. -/
def cexEnvAllOk : ProxyEnv :=
  ⟨.response 200 (.str "upstream payload"), "socket hang up", true, "tx",
   .ok (some "0xabc123"), 1700000000⟩

/-- Claim C2 witness: the no-persistence branch of the corrected claim at
the 404 environment, and the persistence branch at the all-success
environment. -/
theorem proxy_persistence_exactly_on_2xx_witness :
    (proxyHandler cexKeccak cexReq cexEnv404 cexStore).2.1 = cexStore
    ∧ totalUsageFor (proxyHandler cexKeccak cexReq cexEnvAllOk cexStore).2.1 cexKey
        = totalUsageFor cexStore cexKey + 1 :=
  ⟨(proxy_persistence_exactly_on_2xx cexKeccak cexReq cexEnv404 cexStore cexKey
      ⟨cexKey, some "alice", 1000, true, 0⟩ "/forecast"
      (by decide) (by decide) (by decide) (by decide) (by decide)).2.2.1
      404 (.str "upstream error body") (by decide) (by decide),
   ((proxy_persistence_exactly_on_2xx cexKeccak cexReq cexEnvAllOk cexStore cexKey
      ⟨cexKey, some "alice", 1000, true, 0⟩ "/forecast"
      (by decide) (by decide) (by decide) (by decide) (by decide)).1
      200 (.str "upstream payload") (by decide) (by decide) (by decide)).2.1⟩

/-- Claim C3 counterexample: the upstream answered 404 with the body
"upstream error body"; the proxy propagates the 404 status, but its
response body is the generic `{success:false, error:"Proxy failed",
message}` object, not the upstream body. -/
theorem proxy_error_body_not_upstream_body_cex :
    proxyHandler cexKeccak cexReq cexEnv404 cexStore
      = (.err 404 "Proxy failed" "Request failed with status code 404", cexStore, [])
    ∧ cexEnv404.upstream = .response 404 (.str "upstream error body")
    ∧ proxyResponseJson (.err 404 "Proxy failed" "Request failed with status code 404")
        ≠ .str "upstream error body" := by
  exact ⟨by decide, by decide, by decide⟩

/-- Claim C3 (corrected): when the upstream call fails after responding
(non-2xx status), the proxy answers with the upstream status code but with
the generic `{success:false, error:"Proxy failed", message}` body — the
upstream body is not forwarded; when the upstream never responded, the
proxy answers 500 (not 502) with the same error shape.  In both cases no
further step runs: the store is unchanged and no ledger submission is
attempted. -/
theorem proxy_upstream_failure_propagation (keccakBytes32 : String → String)
    (req : ProxyRequest) (env : ProxyEnv) (store : Store) (apiKey : String)
    (keyDoc : ApiKeyDoc) (endpoint : String)
    (h1 : req.method ≠ "OPTIONS")
    (h2 : resolveKey req.query req.headerKey = some apiKey)
    (h3 : store.apiKeys.find? (fun d => d.apiKey == apiKey && d.active) = some keyDoc)
    (h4 : (List.lookup "endpoint" req.query).getD "" = endpoint)
    (h5 : endpoint ≠ "") :
    (∀ status data, env.upstream = .response status data → axiosResolves status = false →
      proxyHandler keccakBytes32 req env store
        = (.err (if status == 0 then 500 else status) "Proxy failed" (axiosStatusMsg status),
           store, []))
    ∧ (env.upstream = .noResponse →
        proxyHandler keccakBytes32 req env store
          = (.err 500 "Proxy failed" env.netErrMsg, store, [])) := by
  rw [proxyHandler_valid keccakBytes32 req env store apiKey keyDoc endpoint h1 h2 h3 h4 h5]
  constructor
  · intro status data h6 h7
    unfold proxyCore
    rw [h6]
    simp only [h7, Bool.false_eq_true, if_false]
  · intro h6
    unfold proxyCore
    rw [h6]

/-- Claim C3 witness: both branches of the corrected claim at concrete
environments. -/
theorem proxy_upstream_failure_propagation_witness :
    proxyHandler cexKeccak cexReq cexEnv404 cexStore
      = (.err (if (404 : Nat) == 0 then 500 else 404) "Proxy failed" (axiosStatusMsg 404),
         cexStore, [])
    ∧ proxyHandler cexKeccak cexReq
        ⟨.noResponse, "getaddrinfo ENOTFOUND", true, "tx", .ok (some "0xabc"), 1700000000⟩
        cexStore
      = (.err 500 "Proxy failed" "getaddrinfo ENOTFOUND", cexStore, []) :=
  ⟨(proxy_upstream_failure_propagation cexKeccak cexReq cexEnv404 cexStore cexKey
      ⟨cexKey, some "alice", 1000, true, 0⟩ "/forecast"
      (by decide) (by decide) (by decide) (by decide) (by decide)).1
      404 (.str "upstream error body") (by decide) (by decide),
   (proxy_upstream_failure_propagation cexKeccak cexReq
      ⟨.noResponse, "getaddrinfo ENOTFOUND", true, "tx", .ok (some "0xabc"), 1700000000⟩
      cexStore cexKey ⟨cexKey, some "alice", 1000, true, 0⟩ "/forecast"
      (by decide) (by decide) (by decide) (by decide) (by decide)).2 (by decide)⟩

/-- An environment in which persistence succeeds but the blockchain
submission fails. -/
def cexEnvLedgerFail : ProxyEnv :=
  ⟨.response 200 (.str "upstream payload"), "socket hang up", true, "tx", .failed, 1700000000⟩

/-- Claim C6 (confirmed): when the upstream responded (2xx, so the ledger
step is reached) and the blockchain submission fails for any reason, the
response still carries the upstream status with `success:true` and the
upstream data, and the `audit` field holds `{error, apiKeyHash,
requestHash, timestamp, tag}` instead of a `txHash`; the ledger failure
never downgrades the request. -/
theorem proxy_ledger_failure_swallowed (keccakBytes32 : String → String)
    (req : ProxyRequest) (env : ProxyEnv) (store : Store) (apiKey : String)
    (keyDoc : ApiKeyDoc) (endpoint : String) (status : Nat) (data : Json)
    (h1 : req.method ≠ "OPTIONS")
    (h2 : resolveKey req.query req.headerKey = some apiKey)
    (h3 : store.apiKeys.find? (fun d => d.apiKey == apiKey && d.active) = some keyDoc)
    (h4 : (List.lookup "endpoint" req.query).getD "" = endpoint)
    (h5 : endpoint ≠ "")
    (h6 : env.upstream = .response status data)
    (h7 : axiosResolves status = true)
    (h8 : env.txOk = true)
    (h9 : env.ledger = .failed) :
    proxyHandler keccakBytes32 req env store
      = (.ok status data
          (.failed "Blockchain logging failed" (keccakBytes32 apiKey)
            (proxyRequestHashHex req endpoint) env.now (proxyTag req)),
         recordUsage store apiKey keyDoc (proxyMethod req) endpoint
           (forwardedParams req.query) status env.now (proxyRequestHashHex req endpoint)
           (proxyTag req),
         [⟨keccakBytes32 apiKey, env.now, "0x" ++ proxyRequestHashHex req endpoint,
           proxyTag req⟩])
    ∧ proxyStatus (proxyHandler keccakBytes32 req env store).1 = status
    ∧ proxyResponseJson (proxyHandler keccakBytes32 req env store).1
        = .obj (.cons "success" (.bool true) (.cons "data" data
            (.cons "audit"
              (.obj (.cons "error" (.str "Blockchain logging failed")
                (.cons "apiKeyHash" (.str (keccakBytes32 apiKey))
                  (.cons "requestHash" (.str (proxyRequestHashHex req endpoint))
                    (.cons "timestamp" (.num env.now)
                      (.cons "tag" (.str (proxyTag req)) .nil)))))) .nil))) := by
  have hmain : proxyHandler keccakBytes32 req env store
      = (.ok status data
          (.failed "Blockchain logging failed" (keccakBytes32 apiKey)
            (proxyRequestHashHex req endpoint) env.now (proxyTag req)),
         recordUsage store apiKey keyDoc (proxyMethod req) endpoint
           (forwardedParams req.query) status env.now (proxyRequestHashHex req endpoint)
           (proxyTag req),
         [⟨keccakBytes32 apiKey, env.now, "0x" ++ proxyRequestHashHex req endpoint,
           proxyTag req⟩]) := by
    rw [proxyHandler_valid keccakBytes32 req env store apiKey keyDoc endpoint h1 h2 h3 h4 h5]
    unfold proxyCore
    rw [h6]
    simp only [h7, h8, if_true, h9]
  refine ⟨hmain, ?_, ?_⟩
  · rw [hmain]
    rfl
  · rw [hmain]
    rfl

/-- Claim C6 witness: at the concrete request and failing-ledger
environment, the response status is the upstream 200. -/
theorem proxy_ledger_failure_swallowed_witness :
    proxyStatus (proxyHandler cexKeccak cexReq cexEnvLedgerFail cexStore).1 = 200 :=
  (proxy_ledger_failure_swallowed cexKeccak cexReq cexEnvLedgerFail cexStore cexKey
    ⟨cexKey, some "alice", 1000, true, 0⟩ "/forecast" 200 (.str "upstream payload")
    (by decide) (by decide) (by decide) (by decide) (by decide) (by decide) (by decide)
    (by decide) (by decide)).2.1

/-- Pointwise reading of the reserved-name filter: not reserved means not
`endpoint` and neither `key` nor `tag`. -/
theorem not_reserved_split (kv : String × String) :
    (!(reservedNames.contains kv.1))
      = (!(kv.1 == "endpoint") && !(kv.1 == "key" || kv.1 == "tag")) := by
  simp only [reservedNames, List.contains_cons, List.contains_nil, Bool.or_false]
  cases kv.1 == "key" <;> cases kv.1 == "endpoint" <;> cases kv.1 == "tag" <;> rfl

/-- The forwarded parameters are what survives first stripping `key` and
`tag`, then stripping `endpoint`. -/
theorem forwardedParams_factor (q : List (String × String)) :
    forwardedParams q
      = (q.filter (fun kv => !(kv.1 == "key" || kv.1 == "tag"))).filter
          (fun kv => !(kv.1 == "endpoint")) := by
  unfold forwardedParams
  rw [List.filter_filter]
  exact List.filter_congr (fun kv _ => not_reserved_split kv)

/-- Claim C5 (confirmed): two proxy requests with the same method, body and
non-reserved query entries — differing only in the values or presence of
`key` and `tag` (and hence sharing their `endpoint` entries) — have the
same forwarded parameters and the same `requestFingerprint`; no reserved
name ever survives into the forwarded parameters the fingerprint is built
from. -/
theorem reserved_params_do_not_affect_fingerprint (req1 req2 : ProxyRequest)
    (endpoint : String)
    (hm : req1.method = req2.method) (hb : req1.body = req2.body)
    (hq : req1.query.filter (fun kv => !(kv.1 == "key" || kv.1 == "tag"))
        = req2.query.filter (fun kv => !(kv.1 == "key" || kv.1 == "tag"))) :
    forwardedParams req1.query = forwardedParams req2.query
    ∧ proxyRequestHashHex req1 endpoint = proxyRequestHashHex req2 endpoint
    ∧ (∀ kv ∈ forwardedParams req1.query,
        kv.1 ≠ "key" ∧ kv.1 ≠ "endpoint" ∧ kv.1 ≠ "tag") := by
  have hfwd : forwardedParams req1.query = forwardedParams req2.query := by
    rw [forwardedParams_factor req1.query, forwardedParams_factor req2.query, hq]
  refine ⟨hfwd, ?_, ?_⟩
  · have hpm : proxyMethod req1 = proxyMethod req2 := by
      unfold proxyMethod
      rw [hm]
    unfold proxyRequestHashHex forwardedData
    rw [hpm, hb, hfwd]
  · intro kv hkv
    have hmem := (List.mem_filter.mp hkv).2
    have h' : reservedNames.contains kv.1 = false := by
      simpa using hmem
    simp only [reservedNames, List.contains_cons, List.contains_nil, Bool.or_false,
      Bool.or_eq_false_iff, beq_eq_false_iff_ne] at h'
    exact ⟨h'.1, h'.2.1, h'.2.2⟩

/-- Claim C5 witness: the spec example — the same forecast call with
different `key` and `tag` values — fingerprints identically. -/
theorem reserved_params_do_not_affect_fingerprint_witness :
    proxyRequestHashHex
      ⟨"GET", [("key", "K1"), ("endpoint", "/forecast"), ("tag", "weather:v1"),
               ("latitude", "52.52")], none, none⟩ "/forecast"
      = proxyRequestHashHex
      ⟨"GET", [("key", "K2"), ("endpoint", "/forecast"), ("tag", "weather:v2"),
               ("latitude", "52.52")], none, none⟩ "/forecast" :=
  (reserved_params_do_not_affect_fingerprint _ _ "/forecast" rfl rfl (by decide)).2.1

/-- Claim C4 (corrected, amended): the fingerprint is a deterministic
function of the forwarded shape taken as ordered data — equal method, body
and forwarded parameter sequences give equal fingerprints.  Equality as
mappings does not suffice: `JSON.stringify` keeps object keys in insertion
order instead of sorting them. -/
theorem fingerprint_deterministic_on_ordered_shape (req1 req2 : ProxyRequest)
    (endpoint : String)
    (hm : req1.method = req2.method) (hb : req1.body = req2.body)
    (hp : forwardedParams req1.query = forwardedParams req2.query) :
    proxyRequestHashHex req1 endpoint = proxyRequestHashHex req2 endpoint := by
  have hpm : proxyMethod req1 = proxyMethod req2 := by
    unfold proxyMethod
    rw [hm]
  unfold proxyRequestHashHex forwardedData
  rw [hpm, hb, hp]

/-- Claim C4 witness: two requests whose non-reserved entries coincide in
the same order (only the stripped `key` differs) fingerprint identically. -/
theorem fingerprint_deterministic_on_ordered_shape_witness :
    proxyRequestHashHex
      ⟨"GET", [("key", "K1"), ("endpoint", "/forecast"), ("latitude", "52.52")], none, none⟩
      "/forecast"
      = proxyRequestHashHex
      ⟨"GET", [("key", "K2"), ("endpoint", "/forecast"), ("latitude", "52.52")], none, none⟩
      "/forecast" :=
  fingerprint_deterministic_on_ordered_shape _ _ "/forecast" rfl rfl (by decide)

/-- The spec example request with its two forwarded parameters supplied in
the opposite order. -/
def cexReqSwapped : ProxyRequest :=
  ⟨"GET", [("key", cexKey), ("endpoint", "/forecast"), ("longitude", "13.41"),
           ("latitude", "52.52")], none, none⟩

/-- Claim C4 counterexample: `cexReq` and `cexReqSwapped` forward the same
parameter mapping — the forwarded entry lists are permutations of one
another with pairwise distinct keys — yet their `requestFingerprint` hex
strings differ, because `JSON.stringify` serializes the `params` object in
insertion order, not with stable key ordering. -/
theorem fingerprint_param_order_sensitive_cex :
    (forwardedParams cexReq.query).Perm (forwardedParams cexReqSwapped.query)
    ∧ ((forwardedParams cexReq.query).map Prod.fst).Nodup
    ∧ ((forwardedParams cexReqSwapped.query).map Prod.fst).Nodup
    ∧ proxyRequestHashHex cexReq "/forecast" ≠ proxyRequestHashHex cexReqSwapped "/forecast" := by
  exact ⟨by decide, by decide, by decide, by decide⟩
